import Mathlib

/-!
A shallow embedding of the watermarking program (`controller.go`, `main.go`)
of the repository `lpav71/watermarkGo`, together with theorems settling the
frozen claims about its specification.

Modelling conventions:
* Go colors are modelled at the 16-bit level returned by `color.Color.RGBA()`:
  four alpha-premultiplied channels in `0 .. 0xffff` (`Fin 65536`).
* Go images (`image.Image`) are a bounds rectangle plus a total pixel
  function; `image.NewRGBA` yields the all-zero (transparent) pixel grid,
  matching Go, whose `At` also returns the zero color outside bounds.
* `draw.Draw` / `draw.DrawMask` with `draw.Over` are modelled by the general
  fallback path of Go's `image/draw`: the clip of the target rectangle
  against the destination bounds, the translated source bounds (and the
  translated mask bounds, when a mask is present), followed by the per-pixel
  blend `out = ((dst*a + src*ma) mod 2^32) / M mod 2^16` with
  `a = M - src.A*ma/M`, `M = 0xffff` (uint32 arithmetic, uint16 store).
* Go `float64` configuration fields (`Opacity`, `Size`, `Rotate`, `Scale`)
  are modelled as `ℚ`.  Every float operation the program performs on them
  (multiplication and division by small decimal constants, comparisons with
  `1` and conversions to integers) is exact at the values the claims are
  about, so the rational model coincides with IEEE double behaviour there.
* Go `int` is modelled as `Int` (no Go image dimension here approaches
  2^63, so overflow is irrelevant); Go's truncating integer division is
  `Int.tdiv`, and Go's float-to-int conversion is truncation toward zero.
* Filesystem access, the PNG/JPEG codecs, the `nfnt/resize` library, the
  `fogleman/gg` text rasterizer and the HTML template engine are external
  to the repository; they enter the model as explicit function parameters
  (an `Env`), while everything the repository itself computes is spelled
  out from the source.
* Fallible Go code (`panic` on error) is modelled with `Option`: `none`
  is an aborted (panicked) computation.
-/

/-- Go `M = 0xffff`, the constant `m = 1<<16 - 1` of Go's `image/draw`. -/
def M : Nat := 65535

/-- Truncate a `Nat` to 16 bits, as Go's `uint16(...)` conversion does. -/
def clamp16 (n : Nat) : Fin 65536 := ⟨n % 65536, Nat.mod_lt _ (by omega)⟩

/-- An alpha-premultiplied color at the 16-bit depth of `color.Color.RGBA()`. -/
structure Color16 where
  r : Fin 65536
  g : Fin 65536
  b : Fin 65536
  a : Fin 65536
deriving DecidableEq, Repr

/-- The fully transparent zero color (`color.RGBA{}`), the initial content of
`image.NewRGBA` buffers and the out-of-bounds color of Go raster images. -/
def zeroColor : Color16 := ⟨0, 0, 0, 0⟩

/-- One pixel of Go's `draw.Over` composition with a mask alpha `ma`
(`ma = M` when no mask is given), exactly as in the general fallback loop of
`image/draw`: uint32 arithmetic (hence the `% 2^32`) and a uint16 store. -/
def blendOver (ma : Nat) (s d : Color16) : Color16 :=
  let a : Nat := M - s.a.val * ma / M
  { r := clamp16 ((d.r.val * a + s.r.val * ma) % 4294967296 / M)
    g := clamp16 ((d.g.val * a + s.g.val * ma) % 4294967296 / M)
    b := clamp16 ((d.b.val * a + s.b.val * ma) % 4294967296 / M)
    a := clamp16 ((d.a.val * a + s.a.val * ma) % 4294967296 / M) }

/-- Go `image.Rectangle`, by its corner coordinates. -/
structure Rect where
  minX : Int
  minY : Int
  maxX : Int
  maxY : Int
deriving DecidableEq, Repr

/-- Go `Rectangle.Dx`. -/
def Rect.Dx (r : Rect) : Int := r.maxX - r.minX

/-- Go `Rectangle.Dy`. -/
def Rect.Dy (r : Rect) : Int := r.maxY - r.minY

/-- Go `Rectangle.Add`, translation by a point. -/
def Rect.add (r : Rect) (dx dy : Int) : Rect :=
  ⟨r.minX + dx, r.minY + dy, r.maxX + dx, r.maxY + dy⟩

/-- Go `Rectangle.Intersect` (Go returns the zero rectangle when the
intersection is empty; for membership purposes the two agree). -/
def Rect.inter (r s : Rect) : Rect :=
  ⟨max r.minX s.minX, max r.minY s.minY, min r.maxX s.maxX, min r.maxY s.maxY⟩

/-- Go `Point.In`: membership of `(x, y)` in a rectangle, as a boolean. -/
def Rect.memB (r : Rect) (x y : Int) : Bool :=
  decide (r.minX ≤ x) && decide (x < r.maxX) &&
  decide (r.minY ≤ y) && decide (y < r.maxY)

theorem Rect.memB_iff (r : Rect) (x y : Int) :
    r.memB x y = true ↔
      r.minX ≤ x ∧ x < r.maxX ∧ r.minY ≤ y ∧ y < r.maxY := by
  simp [Rect.memB, and_assoc]

/-- A Go `image.Image`: bounds plus a total pixel function (the color that
`At` reports; Go raster images report the zero color outside bounds). -/
structure GoImage where
  bounds : Rect
  pix : Int → Int → Color16

/-- Go `image.NewRGBA(bounds)`: an all-transparent raster of the given bounds. -/
def newRGBA (bounds : Rect) : GoImage :=
  { bounds := bounds, pix := fun _ _ => zeroColor }

/-- The rectangle actually drawn by Go's `image/draw` `clip`: the target
rectangle `r` intersected with the destination bounds and with the source
bounds translated by `r.Min - sp`. -/
def clipRegion (dstB r srcB : Rect) (spx spy : Int) : Rect :=
  (r.inter dstB).inter (srcB.add (r.minX - spx) (r.minY - spy))

/-- Go `draw.Draw(dst, r, src, sp, draw.Over)` (nil mask, so the per-pixel mask
alpha is `M`).  The destination point `(x, y)` samples the source at
`sp + (x, y) - r.Min`. -/
def drawOver (dst : GoImage) (r : Rect) (src : GoImage) (spx spy : Int) :
    GoImage :=
  { bounds := dst.bounds
    pix := fun x y =>
      if (clipRegion dst.bounds r src.bounds spx spy).memB x y then
        blendOver M (src.pix (spx + x - r.minX) (spy + y - r.minY))
          (dst.pix x y)
      else dst.pix x y }

/-- The bounds of `image.Uniform` (`Rect(-1e9, -1e9, 1e9, 1e9)`). -/
def uniformBounds : Rect := ⟨-1000000000, -1000000000, 1000000000, 1000000000⟩

/-- Go `draw.DrawMask(dst, r, src, sp, &image.Uniform{alpha}, mp, draw.Over)`
with a uniform alpha mask: the clip additionally meets the translated mask
bounds, and every drawn pixel blends with the constant mask alpha `ma`
(16-bit, i.e. `alpha.RGBA()`'s A channel). -/
def drawUniformMaskOver (dst : GoImage) (r : Rect) (src : GoImage)
    (spx spy : Int) (ma : Nat) (mpx mpy : Int) : GoImage :=
  let region :=
    (clipRegion dst.bounds r src.bounds spx spy).inter
      (uniformBounds.add (r.minX - mpx) (r.minY - mpy))
  { bounds := dst.bounds
    pix := fun x y =>
      if region.memB x y then
        blendOver ma (src.pix (spx + x - r.minX) (spy + y - r.minY))
          (dst.pix x y)
      else dst.pix x y }

/-- Go's float-to-int truncation toward zero, on the rational model. -/
def ratTrunc (q : ℚ) : Int := Int.tdiv q.num (q.den : Int)

/-- Go's `uint(f)` conversion of a `float64` (defined for non-negative
values in range; the program only rescales by positive factors). -/
def goUintOfRat (q : ℚ) : Nat := (ratTrunc q).toNat

/-- Go's `uint8(f)` conversion of a `float64` (defined for values in
`[0, 256)`; the program derives it from an opacity in `[0, 1]`). -/
def goUint8OfRat (q : ℚ) : Nat := (ratTrunc q).toNat % 256

/-- Go `color.Alpha{A: v}.RGBA()`'s alpha channel: `v | v<<8 = v * 257`. -/
def alpha16 (v : Nat) : Nat := v * 257

/-- Go `BaseWatermark` (controller.go): the shared configuration of both
watermark kinds.  `Color` is a Go interface value, `nil` or an 8-bit
`color.RGBA` in this program, hence the `Option`. -/
structure BaseWatermark where
  Opacity : ℚ
  Color : Option (Nat × Nat × Nat × Nat)
  Font : String
  Size : ℚ
  Rotate : ℚ

/-- Go `Watermark` (controller.go): a graphical watermark. -/
structure Watermark extends BaseWatermark where
  Path : String
  Scale : ℚ

/-- Go `TextWatermark` (controller.go): a text watermark. -/
structure TextWatermark extends BaseWatermark where
  Text : String

/-- The program's external dependencies, as explicit functions: the
filesystem, the stdlib image codecs, the `nfnt/resize` rescaler, the
`fogleman/gg` font loader and text rasterizer, and the HTML template
engine.  `Option`-valued fields return `none` where the Go library call
returns an error (or, for `templateParse`, parses but later fails to
execute). -/
structure Env where
  files : String → Option (List (Fin 256))
  imageDecode : List (Fin 256) → Option GoImage
  pngDecode : List (Fin 256) → Option GoImage
  resize : Nat → Nat → GoImage → GoImage
  loadFontOk : String → ℚ → Bool
  renderText : Int → Int → Option (Nat × Nat × Nat × Nat) → ℚ → ℚ → ℚ →
    String → GoImage
  jpegEncode : GoImage → List (Fin 256) × Bool
  pngEncode : GoImage → List (Fin 256) × Bool
  templateParse : String → Option (String → String → Option String)

/-- The angle computed in `CreateImage`:
`angle := -t.Rotate * (3.14 / 180)`. -/
def createImageAngle (t : TextWatermark) : ℚ := -t.Rotate * (3.14 / 180)

/-- Go `(*TextWatermark).CreateImage(width, height)`: creates a transparent
`gg` context of size `(int(width), int(height))`, sets the color, loads the
font face (panicking on failure), rotates about the center by
`createImageAngle` and draws the text anchored at the center with anchor
fractions `0.5, 0.5`.  The `gg` rendering itself is the external
`env.renderText`, which receives every datum the context was given:
context size, color, rotation angle, the anchor point `(width/2, height/2)`
and the text. -/
def CreateImage (env : Env) (t : TextWatermark) (width height : ℚ) :
    Option GoImage :=
  if env.loadFontOk t.Font t.Size then
    some (env.renderText (ratTrunc width) (ratTrunc height) t.Color
      (createImageAngle t) (width / 2) (height / 2) t.Text)
  else none

/-- The centering offset of `(*Watermark).ApplyToImage`:
`((bounds.Dx - wm.Dx) / 2, (bounds.Dy - wm.Dy) / 2)` in Go's truncating
integer division. -/
def wmOffset (baseB wmB : Rect) : Int × Int :=
  (Int.tdiv (baseB.Dx - wmB.Dx) 2, Int.tdiv (baseB.Dy - wmB.Dy) 2)

/-- The `if w.Scale != 1` block of `ApplyToImage` (controller.go, lines
75-80): a non-unit scale rescales the decoded watermark to
`(uint(float64(Dx)*Scale), uint(float64(Dy)*Scale))` with the external
bilinear rescaler; a unit scale leaves it untouched. -/
def scaledWatermark (env : Env) (w : Watermark) (wm0 : GoImage) : GoImage :=
  if w.Scale ≠ 1 then
    env.resize (goUintOfRat ((wm0.bounds.Dx : ℚ) * w.Scale))
      (goUintOfRat ((wm0.bounds.Dy : ℚ) * w.Scale)) wm0
  else wm0

/-- Go `(*Watermark).ApplyToImage(baseImage)`: copies the base image into a
fresh RGBA buffer of the base's bounds; when `Path` is non-empty, opens and
PNG-decodes the watermark file (panicking on failure), rescales it via
`scaledWatermark`, and draws it over the copy at the centering offset. -/
def ApplyToImage (env : Env) (w : Watermark) (baseImage : GoImage) :
    Option GoImage :=
  let bounds := baseImage.bounds
  let result := drawOver (newRGBA bounds) bounds baseImage 0 0
  if w.Path = "" then some result
  else
    match env.files w.Path with
    | none => none
    | some fileBytes =>
      match env.pngDecode fileBytes with
      | none => none
      | some wm0 =>
        let watermarkImage := scaledWatermark env w wm0
        let off := wmOffset bounds watermarkImage.bounds
        some (drawOver result (watermarkImage.bounds.add off.1 off.2)
          watermarkImage 0 0)

/-- Go `(*TextWatermark).CreateWatermarkedImage(baseImage)`: renders the text
layer at the base's dimensions, copies the base into a fresh RGBA buffer,
and blends the text layer over it through the uniform mask
`image.Uniform{color.Alpha{uint8(255 * Opacity)}}`. -/
def CreateWatermarkedImage (env : Env) (w : TextWatermark)
    (baseImage : GoImage) : Option GoImage :=
  match CreateImage env w (baseImage.bounds.Dx : ℚ) (baseImage.bounds.Dy : ℚ)
    with
  | none => none
  | some textImage =>
    let result := drawOver (newRGBA baseImage.bounds) baseImage.bounds
      baseImage 0 0
    some (drawUniformMaskOver result result.bounds textImage 0 0
      (alpha16 (goUint8OfRat (255 * w.Opacity))) 0 0)

/-- The standard base64 alphabet. -/
def b64Alphabet : List Char :=
  "ABCDEFGHIJKLMNOPQRSTUVWXYZabcdefghijklmnopqrstuvwxyz0123456789+/".toList

/-- The base64 digit for a 6-bit value. -/
def b64Char (n : Nat) : Char := b64Alphabet.getD n 'A'

/-- Go `base64.StdEncoding.EncodeToString`: standard base64 with padding. -/
def base64Encode : List (Fin 256) → String
  | [] => ""
  | [b0] =>
    String.mk [b64Char (b0.val / 4), b64Char (b0.val % 4 * 16), '=', '=']
  | [b0, b1] =>
    String.mk [b64Char (b0.val / 4), b64Char (b0.val % 4 * 16 + b1.val / 16),
      b64Char (b1.val % 16 * 4), '=']
  | b0 :: b1 :: b2 :: rest =>
    String.mk [b64Char (b0.val / 4), b64Char (b0.val % 4 * 16 + b1.val / 16),
      b64Char (b1.val % 16 * 4 + b2.val / 64), b64Char (b2.val % 64)] ++
    base64Encode rest

/-- The bytes `encodeImageToBase64` accumulates in its buffer: the switch
on `imgType` writes the JPEG or PNG encoding and leaves the buffer empty
for every other tag.  The encoders' error results (the `Bool` component)
are discarded, as in the source. -/
def encodeBuffer (env : Env) (img : GoImage) (imgType : String) :
    List (Fin 256) :=
  if imgType = "jpeg" then (env.jpegEncode img).1
  else if imgType = "png" then (env.pngEncode img).1
  else []

/-- Go `encodeImageToBase64(img, imgType)`. -/
def encodeImageToBase64 (env : Env) (img : GoImage) (imgType : String) :
    String :=
  base64Encode (encodeBuffer env img imgType)

/-- The outcome of one request to `handleWatermarkedImages`. -/
inductive Outcome where
  | panicked : Outcome
  | httpError : Nat → String → Outcome
  | ok : String → String → Outcome
deriving DecidableEq, Repr

/-- The graphical watermark hardcoded in `handleWatermarkedImages`
(unset Go fields are their zero values: a nil color, empty font, zero size
and rotation). -/
def imageWatermarkCfg : Watermark :=
  { Opacity := 0.6, Color := none, Font := "", Size := 0, Rotate := 0,
    Path := "FG-copyright-mini.png", Scale := 1 }

/-- The text watermark hardcoded in `handleWatermarkedImages`. -/
def textWatermarkCfg : TextWatermark :=
  { Opacity := 0.6, Color := some (239, 250, 23, 255),
    Font := "Nunito-Medium.ttf", Size := 35, Rotate := -29.5,
    Text := "пятаяпередача.рф" }

/-- Go `handleWatermarkedImages`: opens and decodes `image.jpg` (generic
`image.Decode`), applies the graphical watermark; opens and decodes
`zerkalo-ozera.jpg`, applies the text watermark; base64-encodes both as
JPEG; then parses and executes the HTML template.  File, decode and
font-load failures panic (`Outcome.panicked`); template failures are
converted to a 500 response with a static message. -/
def handleWatermarkedImages (env : Env) : Outcome :=
  match env.files "image.jpg" with
  | none => .panicked
  | some f1 =>
    match env.imageDecode f1 with
    | none => .panicked
    | some baseImage1 =>
      match ApplyToImage env imageWatermarkCfg baseImage1 with
      | none => .panicked
      | some watermarkedImage1 =>
        match env.files "zerkalo-ozera.jpg" with
        | none => .panicked
        | some f2 =>
          match env.imageDecode f2 with
          | none => .panicked
          | some baseImage2 =>
            match CreateWatermarkedImage env textWatermarkCfg baseImage2 with
            | none => .panicked
            | some watermarkedImage2 =>
              let b1 := encodeImageToBase64 env watermarkedImage1 "jpeg"
              let b2 := encodeImageToBase64 env watermarkedImage2 "jpeg"
              match env.templateParse "templates/images.html" with
              | none => .httpError 500 "Error loading template"
              | some tmplExec =>
                match tmplExec b1 b2 with
                | none => .httpError 500 "Error executing template"
                | some body => .ok "text/html; charset=utf-8" body

/-- Byte-identity of two images at the level the Go pixel buffers
determine: equal bounds and equal pixels everywhere within them. -/
def byteIdentical (a b : GoImage) : Prop :=
  a.bounds = b.bounds ∧
  ∀ x y : Int, b.bounds.memB x y = true → a.pix x y = b.pix x y

theorem clamp16_mul_M (v : Fin 65536) :
    clamp16 (v.val * M % 4294967296 / M) = v := by
  have hv := v.isLt
  have h1 : v.val * M < 4294967296 := by unfold M; omega
  apply Fin.ext
  simp [clamp16, Nat.mod_eq_of_lt h1,
    Nat.mul_div_cancel _ (show 0 < M by decide), Nat.mod_eq_of_lt hv]

/-- Blending through a zero mask alpha leaves the destination pixel
unchanged (exactly, including the integer roundings). -/
theorem blendOver_zero_mask (s d : Color16) : blendOver 0 s d = d := by
  unfold blendOver
  simp [clamp16_mul_M]

/-- Blending any source pixel over the zero (transparent) destination
yields the source pixel exactly. -/
theorem blendOver_over_zero (s : Color16) : blendOver M s zeroColor = s := by
  unfold blendOver zeroColor
  simp [Nat.mul_div_cancel _ (show 0 < M by decide), clamp16_mul_M]

theorem drawOver_bounds (dst : GoImage) (r : Rect) (src : GoImage)
    (spx spy : Int) : (drawOver dst r src spx spy).bounds = dst.bounds := rfl

/-- A uniform mask of zero alpha makes `draw.DrawMask` the identity on the
destination. -/
theorem drawUniformMaskOver_zero_alpha (dst : GoImage) (r : Rect)
    (src : GoImage) (spx spy mpx mpy : Int) :
    drawUniformMaskOver dst r src spx spy 0 mpx mpy = dst := by
  cases dst with
  | mk b p =>
    unfold drawUniformMaskOver
    simp only []
    congr 1
    funext x y
    split
    · exact blendOver_zero_mask _ _
    · rfl

/-- The first step of both compositors: copying the base image into
`image.NewRGBA(bounds)`.  For a base whose bounds start at the origin, the
copy reproduces the base exactly within its bounds. -/
theorem copy_pix (base : GoImage) (h0x : base.bounds.minX = 0)
    (h0y : base.bounds.minY = 0) (x y : Int)
    (hmem : base.bounds.memB x y = true) :
    (drawOver (newRGBA base.bounds) base.bounds base 0 0).pix x y
      = base.pix x y := by
  rw [Rect.memB_iff] at hmem
  unfold drawOver newRGBA clipRegion
  simp only []
  rw [if_pos, h0x, h0y]
  · rw [show (0 : Int) + x - 0 = x by omega, show (0 : Int) + y - 0 = y
      by omega]
    exact blendOver_over_zero _
  · rw [Rect.memB_iff]
    simp only [Rect.inter, Rect.add, h0x, h0y]
    constructor
    · omega
    constructor
    · omega
    constructor
    · omega
    · omega

/-- The copy has the base's bounds. -/
theorem copy_bounds (base : GoImage) :
    (drawOver (newRGBA base.bounds) base.bounds base 0 0).bounds
      = base.bounds := rfl

/-- For a base image with origin bounds, the copy is byte-identical to the
base. -/
theorem copy_byteIdentical (base : GoImage) (h0x : base.bounds.minX = 0)
    (h0y : base.bounds.minY = 0) :
    byteIdentical (drawOver (newRGBA base.bounds) base.bounds base 0 0)
      base :=
  ⟨copy_bounds base, fun x y hmem => copy_pix base h0x h0y x y hmem⟩

/-- An opacity of `0` makes the uniform mask alpha
`uint8(255 * 0) * 0x101 = 0`. -/
theorem mask_alpha_of_opacity_zero :
    alpha16 (goUint8OfRat (255 * (0 : ℚ))) = 0 := by
  norm_num [alpha16, goUint8OfRat, ratTrunc]

/-- With opacity `0` the whole text-watermark composite collapses to the
plain base-image copy (given that the font loads). -/
theorem createWatermarked_opacity_zero (env : Env) (t : TextWatermark)
    (base : GoImage) (hop : t.Opacity = 0)
    (hf : env.loadFontOk t.Font t.Size = true) :
    CreateWatermarkedImage env t base
      = some (drawOver (newRGBA base.bounds) base.bounds base 0 0) := by
  unfold CreateWatermarkedImage CreateImage
  rw [hf]
  simp only [if_true]
  rw [hop, mask_alpha_of_opacity_zero, drawUniformMaskOver_zero_alpha]

/-- An all-purpose concrete placeholder image. -/
def dummyImage : GoImage := newRGBA ⟨0, 0, 1, 1⟩

/-- A concrete environment used by witnesses: every file is absent, every
decoder fails, the font loads, rendering yields `dummyImage`, the encoders
write nothing, the template is absent. -/
def dummyEnv : Env :=
  { files := fun _ => none
    imageDecode := fun _ => none
    pngDecode := fun _ => none
    resize := fun _ _ i => i
    loadFontOk := fun _ _ => true
    renderText := fun _ _ _ _ _ _ _ => dummyImage
    jpegEncode := fun _ => ([], false)
    pngEncode := fun _ => ([], false)
    templateParse := fun _ => none }

/-- An opaque white pixel at 16-bit depth. -/
def opaqueWhite : Color16 := ⟨65535, 65535, 65535, 65535⟩

/-- A 1×1 base image whose bounds do _not_ start at the origin (legal for
Go's `image.Image`, e.g. via `SubImage`), with an opaque white pixel. -/
def offOriginBase : GoImage :=
  { bounds := ⟨1, 1, 2, 2⟩, pix := fun _ _ => opaqueWhite }

/-- A concrete text watermark with rotation 180 used for claim C1. -/
def c1Wm : TextWatermark :=
  { Opacity := 1, Color := none, Font := "f", Size := 12, Rotate := 180,
    Text := "x" }

/-- C1, counterexample: at a rotation of 180 degrees the angle the code
computes is `-3.14`, which is not `-180 · π/180 = -π`, because the source
multiplies by `3.14 / 180` and `3.14 < π`. -/
theorem c1_counterexample :
    ((createImageAngle c1Wm : ℚ) : ℝ) ≠ -(180 : ℝ) * (Real.pi / 180) := by
  have hpi := Real.pi_gt_d2
  have h1 : ((createImageAngle c1Wm : ℚ) : ℝ) = -3.14 := by
    norm_num [createImageAngle, c1Wm]
  rw [h1]
  intro hc
  have : Real.pi = 3.14 := by linarith
  rw [this] at hpi
  norm_num at hpi

/-- C1, amended: for every text watermark, when the font loads, the text
layer is rendered with the rotation angle `createImageAngle`, and that
angle equals `-Rotate × (3.14 / 180)` — the multiplier the code applies to
`-Rotate` is the decimal constant `3.14 / 180`, not `π / 180`. -/
theorem c1_angle_multiplier (env : Env) (t : TextWatermark) (w h : ℚ)
    (hf : env.loadFontOk t.Font t.Size = true) :
    CreateImage env t w h
      = some (env.renderText (ratTrunc w) (ratTrunc h) t.Color
          (createImageAngle t) (w / 2) (h / 2) t.Text)
    ∧ ((createImageAngle t : ℚ) : ℝ) = -(t.Rotate : ℝ) * (3.14 / 180) := by
  constructor
  · unfold CreateImage
    rw [hf]
    simp only [if_true]
  · unfold createImageAngle
    push_cast
    norm_num

/-- C1 witness: the amended statement at a concrete environment and
watermark. -/
theorem c1_angle_multiplier_witness :
    dummyEnv.loadFontOk c1Wm.Font c1Wm.Size = true ∧
    (CreateImage dummyEnv c1Wm 10 20
        = some (dummyEnv.renderText (ratTrunc 10) (ratTrunc 20) c1Wm.Color
            (createImageAngle c1Wm) (10 / 2) (20 / 2) c1Wm.Text)
      ∧ ((createImageAngle c1Wm : ℚ) : ℝ)
          = -(c1Wm.Rotate : ℝ) * (3.14 / 180)) :=
  ⟨rfl, c1_angle_multiplier dummyEnv c1Wm 10 20 rfl⟩

/-- C2: the graphical compositor reads only `Path` and `Scale`; two
watermarks agreeing on those fields produce identical results on any base
image, whatever their `Opacity`, `Color`, `Font`, `Size` and `Rotate`. -/
theorem c2_opacity_independent (env : Env) (w1 w2 : Watermark)
    (base : GoImage) (hp : w1.Path = w2.Path) (hs : w1.Scale = w2.Scale) :
    ApplyToImage env w1 base = ApplyToImage env w2 base := by
  unfold ApplyToImage scaledWatermark
  rw [hp, hs]

/-- A concrete graphical watermark with empty path (and zero style). -/
def emptyPathWm : Watermark :=
  { Opacity := 0, Color := none, Font := "", Size := 0, Rotate := 0,
    Path := "", Scale := 1 }

/-- The same watermark with a different opacity. -/
def emptyPathWmOpaque : Watermark := { emptyPathWm with Opacity := 1 }

/-- C2 witness: two watermarks differing only in opacity, applied to a
concrete base image. -/
theorem c2_opacity_independent_witness :
    emptyPathWm.Path = emptyPathWmOpaque.Path ∧
    emptyPathWm.Scale = emptyPathWmOpaque.Scale ∧
    ApplyToImage dummyEnv emptyPathWm dummyImage
      = ApplyToImage dummyEnv emptyPathWmOpaque dummyImage :=
  ⟨rfl, rfl,
    c2_opacity_independent dummyEnv emptyPathWm emptyPathWmOpaque dummyImage
      rfl rfl⟩

/-- C3: any format tag other than `"jpeg"` and `"png"` leaves the buffer
empty and makes `encodeImageToBase64` return the base64 encoding of zero
bytes — the empty string — with no error (its type has no error channel). -/
theorem c3_unsupported_format (env : Env) (img : GoImage) (imgType : String)
    (h1 : imgType ≠ "jpeg") (h2 : imgType ≠ "png") :
    encodeBuffer env img imgType = [] ∧
    encodeImageToBase64 env img imgType = "" := by
  have hb : encodeBuffer env img imgType = [] := by
    unfold encodeBuffer
    rw [if_neg h1, if_neg h2]
  refine ⟨hb, ?_⟩
  unfold encodeImageToBase64
  rw [hb]
  rfl

/-- C3 witness: the tag `"gif"` yields a zero-length buffer and the empty
string. -/
theorem c3_unsupported_format_witness :
    "gif" ≠ "jpeg" ∧ "gif" ≠ "png" ∧
    (encodeBuffer dummyEnv dummyImage "gif" = [] ∧
      encodeImageToBase64 dummyEnv dummyImage "gif" = "") :=
  ⟨by decide, by decide,
    c3_unsupported_format dummyEnv dummyImage "gif" (by decide) (by decide)⟩

/-- A concrete zero-opacity text watermark. -/
def zeroOpacityWm : TextWatermark :=
  { Opacity := 0, Color := none, Font := "f", Size := 1, Rotate := 0,
    Text := "t" }

/-- The image `CreateWatermarkedImage` produces on `offOriginBase` with the
zero-opacity text watermark. -/
def c4Result : GoImage :=
  (CreateWatermarkedImage dummyEnv zeroOpacityWm offOriginBase).getD
    dummyImage

/-- C4, counterexample: on a base image whose bounds start at `(1,1)`
instead of the origin, the zero-opacity composite is _not_ byte-identical
to the base: because `draw.Draw` is called with source point `(0,0)`, the
base-copy step clips to nothing and returns a fully transparent image, so
the pixel at `(1,1)` (inside the bounds, opaque white in the base) comes
out zero. -/
theorem c4_counterexample :
    zeroOpacityWm.Opacity = 0 ∧
    (CreateWatermarkedImage dummyEnv zeroOpacityWm offOriginBase).isSome
      = true ∧
    offOriginBase.bounds.memB 1 1 = true ∧
    c4Result.bounds = offOriginBase.bounds ∧
    c4Result.pix 1 1 ≠ offOriginBase.pix 1 1 := by
  have hres : CreateWatermarkedImage dummyEnv zeroOpacityWm offOriginBase
      = some (drawOver (newRGBA offOriginBase.bounds) offOriginBase.bounds
          offOriginBase 0 0) :=
    createWatermarked_opacity_zero dummyEnv zeroOpacityWm offOriginBase rfl
      rfl
  refine ⟨rfl, by rw [hres]; rfl, by decide, by rw [c4Result, hres]; rfl, ?_⟩
  rw [c4Result, hres]
  decide

/-- C4, amended: for every base image whose bounds start at the origin (as
all images decoded from files do) and every text watermark of opacity `0`,
`CreateWatermarkedImage` returns an image byte-identical to the base: the
uniform mask `uint8(0 × 255)` is fully transparent, so the text layer
contributes nothing. -/
theorem c4_opacity_zero_identity (env : Env) (t : TextWatermark)
    (base : GoImage) (hop : t.Opacity = 0) (h0x : base.bounds.minX = 0)
    (h0y : base.bounds.minY = 0)
    (hf : env.loadFontOk t.Font t.Size = true) :
    ∃ r, CreateWatermarkedImage env t base = some r ∧ byteIdentical r base :=
  ⟨_, createWatermarked_opacity_zero env t base hop hf,
    copy_byteIdentical base h0x h0y⟩

/-- A 2×2 origin-bounds base image with an opaque white pixel grid. -/
def originBase : GoImage :=
  { bounds := ⟨0, 0, 2, 2⟩, pix := fun _ _ => opaqueWhite }

/-- C4 witness: the amended statement at a concrete environment, watermark
and origin-bounds base image. -/
theorem c4_opacity_zero_identity_witness :
    zeroOpacityWm.Opacity = 0 ∧ originBase.bounds.minX = 0 ∧
    originBase.bounds.minY = 0 ∧
    dummyEnv.loadFontOk zeroOpacityWm.Font zeroOpacityWm.Size = true ∧
    ∃ r, CreateWatermarkedImage dummyEnv zeroOpacityWm originBase = some r ∧
      byteIdentical r originBase :=
  ⟨rfl, rfl, rfl, rfl,
    c4_opacity_zero_identity dummyEnv zeroOpacityWm originBase rfl rfl rfl
      rfl⟩

/-- The image `ApplyToImage` produces on `offOriginBase` with the
empty-path watermark. -/
def c5Result : GoImage :=
  (ApplyToImage dummyEnv emptyPathWm offOriginBase).getD dummyImage

/-- C5, counterexample: on a base image whose bounds start at `(1,1)`, the
empty-path "no-op" copy is _not_ byte-identical to the base: `draw.Draw`
with source point `(0,0)` clips the copy to nothing, so the returned image
is fully transparent while the base has an opaque white pixel at `(1,1)`. -/
theorem c5_counterexample :
    emptyPathWm.Path = "" ∧
    (ApplyToImage dummyEnv emptyPathWm offOriginBase).isSome = true ∧
    offOriginBase.bounds.memB 1 1 = true ∧
    c5Result.bounds = offOriginBase.bounds ∧
    c5Result.pix 1 1 ≠ offOriginBase.pix 1 1 := by
  refine ⟨rfl, rfl, by decide, rfl, ?_⟩
  decide

/-- C5, amended: for every base image whose bounds start at the origin (as
all images decoded from files do), a graphical watermark with empty
resource path makes `ApplyToImage` return a byte-identical copy of the
base, touching neither the filesystem nor the compositor. -/
theorem c5_empty_path_identity (env : Env) (w : Watermark) (base : GoImage)
    (hp : w.Path = "") (h0x : base.bounds.minX = 0)
    (h0y : base.bounds.minY = 0) :
    ∃ r, ApplyToImage env w base = some r ∧ byteIdentical r base := by
  refine ⟨_, ?_, copy_byteIdentical base h0x h0y⟩
  unfold ApplyToImage
  rw [if_pos hp]

/-- C5 witness: the amended statement at a concrete environment, watermark
and origin-bounds base image. -/
theorem c5_empty_path_identity_witness :
    emptyPathWm.Path = "" ∧ originBase.bounds.minX = 0 ∧
    originBase.bounds.minY = 0 ∧
    ∃ r, ApplyToImage dummyEnv emptyPathWm originBase = some r ∧
      byteIdentical r originBase :=
  ⟨rfl, rfl, rfl,
    c5_empty_path_identity dummyEnv emptyPathWm originBase rfl rfl rfl⟩

/-- A pixel outside the destination bounds is never touched by a draw:
the clip rectangle is contained in the destination bounds. -/
theorem drawOver_pix_outside_dst (dst : GoImage) (r : Rect) (src : GoImage)
    (spx spy x y : Int) (h : dst.bounds.memB x y = false) :
    (drawOver dst r src spx spy).pix x y = dst.pix x y := by
  have h' : ¬ (dst.bounds.minX ≤ x ∧ x < dst.bounds.maxX ∧
      dst.bounds.minY ≤ y ∧ y < dst.bounds.maxY) := by
    rw [← Rect.memB_iff, h]
    simp
  have hclip : (clipRegion dst.bounds r src.bounds spx spy).memB x y
      = false := by
    rw [Bool.eq_false_iff, Ne, Rect.memB_iff]
    simp only [clipRegion, Rect.inter, Rect.add]
    omega
  unfold drawOver
  simp only [hclip, Bool.false_eq_true, if_false]

/-- Drawing a source whose bounds start at the origin, translated by an
offset: each destination pixel inside both the translated source rectangle
and the destination bounds blends the source pixel sampled at the point
minus the offset over the old destination pixel. -/
theorem drawOver_pix_translated (dst : GoImage) (src : GoImage)
    (offX offY x y : Int) (h0x : src.bounds.minX = 0)
    (h0y : src.bounds.minY = 0)
    (hr : (src.bounds.add offX offY).memB x y = true)
    (hdst : dst.bounds.memB x y = true) :
    (drawOver dst (src.bounds.add offX offY) src 0 0).pix x y
      = blendOver M (src.pix (x - offX) (y - offY)) (dst.pix x y) := by
  have hr' := (Rect.memB_iff _ x y).mp hr
  have hd' := (Rect.memB_iff _ x y).mp hdst
  simp only [Rect.add] at hr'
  have hclip : (clipRegion dst.bounds (src.bounds.add offX offY) src.bounds
      0 0).memB x y = true := by
    rw [Rect.memB_iff]
    simp only [clipRegion, Rect.inter, Rect.add]
    omega
  unfold drawOver
  dsimp only
  rw [if_pos hclip]
  rw [show (0 : Int) + x - (src.bounds.add offX offY).minX = x - offX by
      simp only [Rect.add]; omega,
    show (0 : Int) + y - (src.bounds.add offX offY).minY = y - offY by
      simp only [Rect.add]; omega]

/-- C6: when the watermark file decodes, `ApplyToImage` draws the (possibly
rescaled) watermark image over the base copy in the rectangle obtained by
translating the watermark bounds by
`offset = ((baseWidth - wmWidth)/2, (baseHeight - wmHeight)/2)`; for an
800×600 base and a 100×100 watermark the top-left lands at `(350, 250)`;
negative offsets (watermark larger than the base, e.g. 1000×1000) are
produced without clamping, and drawing simply clips: pixels outside the
base bounds are untouched, pixels inside both rectangles blend the
watermark pixel sampled at the point minus the offset. -/
theorem c6_center_offset (env : Env) (w : Watermark) (base : GoImage)
    (bs : List (Fin 256)) (wm0 wmI : GoImage) (off : Int × Int)
    (hp : w.Path ≠ "") (hf : env.files w.Path = some bs)
    (hd : env.pngDecode bs = some wm0)
    (hwmI : wmI = scaledWatermark env w wm0)
    (hoff : off = wmOffset base.bounds wmI.bounds) :
    ApplyToImage env w base
      = some (drawOver (drawOver (newRGBA base.bounds) base.bounds base 0 0)
          (wmI.bounds.add off.1 off.2) wmI 0 0)
    ∧ off = (Int.tdiv (base.bounds.Dx - wmI.bounds.Dx) 2,
        Int.tdiv (base.bounds.Dy - wmI.bounds.Dy) 2)
    ∧ wmOffset ⟨0, 0, 800, 600⟩ ⟨0, 0, 100, 100⟩ = (350, 250)
    ∧ wmOffset ⟨0, 0, 800, 600⟩ ⟨0, 0, 1000, 1000⟩ = (-100, -200)
    ∧ (∀ x y : Int, base.bounds.memB x y = false →
        (drawOver (drawOver (newRGBA base.bounds) base.bounds base 0 0)
            (wmI.bounds.add off.1 off.2) wmI 0 0).pix x y
          = (drawOver (newRGBA base.bounds) base.bounds base 0 0).pix x y)
    ∧ (wmI.bounds.minX = 0 → wmI.bounds.minY = 0 →
        ∀ x y : Int, (wmI.bounds.add off.1 off.2).memB x y = true →
          base.bounds.memB x y = true →
          (drawOver (drawOver (newRGBA base.bounds) base.bounds base 0 0)
              (wmI.bounds.add off.1 off.2) wmI 0 0).pix x y
            = blendOver M (wmI.pix (x - off.1) (y - off.2))
                ((drawOver (newRGBA base.bounds) base.bounds base 0 0).pix
                  x y)) := by
  subst hwmI
  subst hoff
  refine ⟨?_, rfl, by decide, by decide, ?_, ?_⟩
  · unfold ApplyToImage
    rw [if_neg hp, hf]
    simp only []
    rw [hd]
  · intro x y hout
    exact drawOver_pix_outside_dst _ _ _ _ _ _ _ hout
  · intro h0x h0y x y hin hbase
    exact drawOver_pix_translated _ _ _ _ _ _ h0x h0y hin hbase

/-- A concrete 800×600 base image. -/
def base800 : GoImage := { bounds := ⟨0, 0, 800, 600⟩, pix := fun _ _ => opaqueWhite }

/-- A concrete 100×100 watermark bitmap. -/
def wm100 : GoImage := { bounds := ⟨0, 0, 100, 100⟩, pix := fun _ _ => opaqueWhite }

/-- An environment in which `"wm.png"` exists and PNG-decodes to the
100×100 bitmap. -/
def c6Env : Env :=
  { dummyEnv with
    files := fun p => if p = "wm.png" then some [0] else none
    pngDecode := fun _ => some wm100 }

/-- The scenario watermark: path `"wm.png"`, scale 1. -/
def c6Wm : Watermark :=
  { Opacity := 0.6, Color := none, Font := "", Size := 0, Rotate := 0,
    Path := "wm.png", Scale := 1 }

/-- C6 witness: the scenario of the claim — the offset for an 800×600 base
and the 100×100 decoded watermark at scale 1 is `(350, 250)`, and the
compositing succeeds. -/
theorem c6_center_offset_witness :
    wmOffset ⟨0, 0, 800, 600⟩ ⟨0, 0, 100, 100⟩ = (350, 250) ∧
    (ApplyToImage c6Env c6Wm base800).isSome = true := by
  have h := c6_center_offset c6Env c6Wm base800 [0] wm100
    (scaledWatermark c6Env c6Wm wm100)
    (wmOffset base800.bounds (scaledWatermark c6Env c6Wm wm100).bounds)
    (by decide) rfl rfl rfl rfl
  exact ⟨h.2.2.1, by rw [h.1]; rfl⟩

/-- C7: with scale 1 the composited output has the base's bounds; a scale
of exactly 1 skips the resize step entirely (the result does not depend on
the rescaler at all: any two environments agreeing on filesystem and PNG
decoding — but with arbitrary, different rescalers — give identical
results); any scale ≠ 1 rescales the decoded watermark to
`(uint(Dx·scale), uint(Dy·scale))` with the external bilinear rescaler
before compositing. -/
theorem c7_scale_semantics (env env' : Env) (w : Watermark)
    (base : GoImage) :
    (w.Scale = 1 →
      ∀ r, ApplyToImage env w base = some r → r.bounds = base.bounds)
    ∧ (w.Scale = 1 → env.files = env'.files →
        env.pngDecode = env'.pngDecode →
        ApplyToImage env w base = ApplyToImage env' w base)
    ∧ (∀ wm0 : GoImage, w.Scale ≠ 1 →
        scaledWatermark env w wm0
          = env.resize (goUintOfRat ((wm0.bounds.Dx : ℚ) * w.Scale))
              (goUintOfRat ((wm0.bounds.Dy : ℚ) * w.Scale)) wm0)
    ∧ (w.Scale ≠ 1 → w.Path ≠ "" →
        ∀ bs wm0, env.files w.Path = some bs →
          env.pngDecode bs = some wm0 →
          ApplyToImage env w base
            = some (drawOver
                (drawOver (newRGBA base.bounds) base.bounds base 0 0)
                ((scaledWatermark env w wm0).bounds.add
                  (wmOffset base.bounds
                    (scaledWatermark env w wm0).bounds).1
                  (wmOffset base.bounds
                    (scaledWatermark env w wm0).bounds).2)
                (scaledWatermark env w wm0) 0 0)) := by
  refine ⟨?_, ?_, ?_, ?_⟩
  · intro _ r hr
    unfold ApplyToImage at hr
    split at hr
    · cases hr; rfl
    · split at hr
      · cases hr
      · split at hr
        · cases hr
        · cases hr; rfl
  · intro hs hfiles hdec
    unfold ApplyToImage scaledWatermark
    rw [hs, hfiles, hdec]
    simp
  · intro wm0 hs
    unfold scaledWatermark
    rw [if_pos hs]
  · intro _ hp bs wm0 hfs hdec
    unfold ApplyToImage
    rw [if_neg hp, hfs]
    simp only []
    rw [hdec]

/-- A font-load failure aborts (panics) the whole text-watermark
composite. -/
theorem createWatermarked_font_failure (env : Env) (t : TextWatermark)
    (base : GoImage) (hf : env.loadFontOk t.Font t.Size = false) :
    CreateWatermarkedImage env t base = none := by
  unfold CreateWatermarkedImage CreateImage
  rw [hf]
  rfl

/-- C8: of the five failure kinds, a missing resource, a failing decode
and a failing font load each leave `handleWatermarkedImages` panicked
(the request aborts), while a template-load failure and a
template-execution failure are recovered into a generic 500 response with
a static message. -/
theorem c8_error_taxonomy (env : Env) :
    (env.files "image.jpg" = none →
      handleWatermarkedImages env = .panicked)
    ∧ (∀ f1, env.files "image.jpg" = some f1 →
        env.imageDecode f1 = none →
        handleWatermarkedImages env = .panicked)
    ∧ (∀ f1 b1 r1 f2 b2, env.files "image.jpg" = some f1 →
        env.imageDecode f1 = some b1 →
        ApplyToImage env imageWatermarkCfg b1 = some r1 →
        env.files "zerkalo-ozera.jpg" = some f2 →
        env.imageDecode f2 = some b2 →
        env.loadFontOk textWatermarkCfg.Font textWatermarkCfg.Size
          = false →
        handleWatermarkedImages env = .panicked)
    ∧ (∀ f1 b1 r1 f2 b2 r2, env.files "image.jpg" = some f1 →
        env.imageDecode f1 = some b1 →
        ApplyToImage env imageWatermarkCfg b1 = some r1 →
        env.files "zerkalo-ozera.jpg" = some f2 →
        env.imageDecode f2 = some b2 →
        CreateWatermarkedImage env textWatermarkCfg b2 = some r2 →
        env.templateParse "templates/images.html" = none →
        handleWatermarkedImages env
          = .httpError 500 "Error loading template")
    ∧ (∀ f1 b1 r1 f2 b2 r2 ex, env.files "image.jpg" = some f1 →
        env.imageDecode f1 = some b1 →
        ApplyToImage env imageWatermarkCfg b1 = some r1 →
        env.files "zerkalo-ozera.jpg" = some f2 →
        env.imageDecode f2 = some b2 →
        CreateWatermarkedImage env textWatermarkCfg b2 = some r2 →
        env.templateParse "templates/images.html" = some ex →
        ex (encodeImageToBase64 env r1 "jpeg")
          (encodeImageToBase64 env r2 "jpeg") = none →
        handleWatermarkedImages env
          = .httpError 500 "Error executing template") := by
  refine ⟨?_, ?_, ?_, ?_, ?_⟩
  · intro h1
    unfold handleWatermarkedImages
    rw [h1]
  · intro f1 hf1 hd1
    unfold handleWatermarkedImages
    rw [hf1]
    simp only []
    rw [hd1]
  · intro f1 b1 r1 f2 b2 hf1 hd1 ha hf2 hd2 hfont
    unfold handleWatermarkedImages
    rw [hf1]
    simp only []
    rw [hd1]
    simp only []
    rw [ha]
    simp only []
    rw [hf2]
    simp only []
    rw [hd2]
    simp only []
    rw [createWatermarked_font_failure env textWatermarkCfg b2 hfont]
  · intro f1 b1 r1 f2 b2 r2 hf1 hd1 ha hf2 hd2 hcwi htmpl
    unfold handleWatermarkedImages
    rw [hf1]
    simp only []
    rw [hd1]
    simp only []
    rw [ha]
    simp only []
    rw [hf2]
    simp only []
    rw [hd2]
    simp only []
    rw [hcwi]
    simp only []
    rw [htmpl]
  · intro f1 b1 r1 f2 b2 r2 ex hf1 hd1 ha hf2 hd2 hcwi htmpl hexec
    unfold handleWatermarkedImages
    rw [hf1]
    simp only []
    rw [hd1]
    simp only []
    rw [ha]
    simp only []
    rw [hf2]
    simp only []
    rw [hd2]
    simp only []
    rw [hcwi]
    simp only []
    rw [htmpl]
    simp only []
    rw [hexec]

/-- An environment in which every step of the handler succeeds. -/
def c8EnvOk : Env :=
  { files := fun _ => some [7]
    imageDecode := fun _ => some originBase
    pngDecode := fun _ => some originBase
    resize := fun _ _ i => i
    loadFontOk := fun _ _ => true
    renderText := fun _ _ _ _ _ _ _ => originBase
    jpegEncode := fun _ => ([], false)
    pngEncode := fun _ => ([], false)
    templateParse := fun _ => some (fun _ _ => some "page") }

/-- The good environment with every file missing. -/
def c8EnvNoFile : Env := { c8EnvOk with files := fun _ => none }

/-- The good environment with a failing generic image decoder. -/
def c8EnvBadDecode : Env := { c8EnvOk with imageDecode := fun _ => none }

/-- The good environment with a failing font loader. -/
def c8EnvBadFont : Env := { c8EnvOk with loadFontOk := fun _ _ => false }

/-- The good environment with a missing template file. -/
def c8EnvNoTemplate : Env := { c8EnvOk with templateParse := fun _ => none }

/-- The good environment with a template that fails to execute. -/
def c8EnvBadExec : Env :=
  { c8EnvOk with templateParse := fun _ => some (fun _ _ => none) }

/-- C8 witness: one concrete environment per failure kind, each failing at
exactly that step. -/
theorem c8_error_taxonomy_witness :
    handleWatermarkedImages c8EnvNoFile = .panicked
    ∧ handleWatermarkedImages c8EnvBadDecode = .panicked
    ∧ handleWatermarkedImages c8EnvBadFont = .panicked
    ∧ handleWatermarkedImages c8EnvNoTemplate
        = .httpError 500 "Error loading template"
    ∧ handleWatermarkedImages c8EnvBadExec
        = .httpError 500 "Error executing template" :=
  ⟨(c8_error_taxonomy c8EnvNoFile).1 rfl,
    (c8_error_taxonomy c8EnvBadDecode).2.1 _ rfl rfl,
    (c8_error_taxonomy c8EnvBadFont).2.2.1 _ _ _ _ _ rfl rfl rfl rfl rfl
      rfl,
    (c8_error_taxonomy c8EnvNoTemplate).2.2.2.1 _ _ _ _ _ _ rfl rfl rfl
      rfl rfl rfl rfl,
    (c8_error_taxonomy c8EnvBadExec).2.2.2.2 _ _ _ _ _ _ _ rfl rfl rfl
      rfl rfl rfl rfl rfl⟩

/-- C9: the watermark file is decoded strictly as PNG — whenever the PNG
decoder rejects the file's bytes, `ApplyToImage` panics, even when the
format-generic decoder (`image.Decode`) accepts the very same bytes as a
valid image; by contrast the handler's base images go through the generic
decoder, so the whole request can succeed although neither base file is a
PNG. -/
theorem c9_png_strict_watermark (env : Env) (w : Watermark)
    (base : GoImage) (bs : List (Fin 256)) :
    (w.Path ≠ "" → env.files w.Path = some bs →
      env.pngDecode bs = none →
      ∀ img, env.imageDecode bs = some img →
        ApplyToImage env w base = none)
    ∧ (∀ f1 b1 r1 f2 b2 r2 ex body, env.files "image.jpg" = some f1 →
        env.pngDecode f1 = none →
        env.imageDecode f1 = some b1 →
        ApplyToImage env imageWatermarkCfg b1 = some r1 →
        env.files "zerkalo-ozera.jpg" = some f2 →
        env.pngDecode f2 = none →
        env.imageDecode f2 = some b2 →
        CreateWatermarkedImage env textWatermarkCfg b2 = some r2 →
        env.templateParse "templates/images.html" = some ex →
        ex (encodeImageToBase64 env r1 "jpeg")
          (encodeImageToBase64 env r2 "jpeg") = some body →
        handleWatermarkedImages env = .ok "text/html; charset=utf-8" body)
    := by
  constructor
  · intro hp hfs hpng img _
    unfold ApplyToImage
    rw [if_neg hp, hfs]
    simp only []
    rw [hpng]
  · intro f1 b1 r1 f2 b2 r2 ex body hf1 _ hd1 ha hf2 _ hd2 hcwi htmpl
      hexec
    unfold handleWatermarkedImages
    rw [hf1]
    simp only []
    rw [hd1]
    simp only []
    rw [ha]
    simp only []
    rw [hf2]
    simp only []
    rw [hd2]
    simp only []
    rw [hcwi]
    simp only []
    rw [htmpl]
    simp only []
    rw [hexec]

/-- An environment whose filesystem holds JPEG bytes (`[1]`) for the two
base images and for `"wm.jpg"`, and PNG bytes (`[9]`) for the hardcoded
watermark file; the PNG decoder accepts only `[9]`, while the generic
decoder accepts anything. -/
def c9Env : Env :=
  { c8EnvOk with
    files := fun p =>
      if p = "FG-copyright-mini.png" then some [9]
      else if p = "image.jpg" ∨ p = "zerkalo-ozera.jpg" ∨ p = "wm.jpg"
        then some [1]
      else none
    pngDecode := fun bs => if bs = [9] then some wm100 else none
    imageDecode := fun _ => some originBase
    templateParse := fun _ => some (fun _ _ => some "done") }

/-- A graphical watermark whose file holds JPEG bytes. -/
def c9JpegWm : Watermark :=
  { Opacity := 0.6, Color := none, Font := "", Size := 0, Rotate := 0,
    Path := "wm.jpg", Scale := 1 }

/-- C9 witness: with `"wm.jpg"` holding non-PNG bytes the compositor
panics although the generic decoder accepts the file, while the handler —
whose base files are equally non-PNG — completes with a 200 response. -/
theorem c9_png_strict_watermark_witness :
    c9Env.pngDecode [1] = none ∧ c9Env.imageDecode [1] = some originBase ∧
    ApplyToImage c9Env c9JpegWm originBase = none
    ∧ handleWatermarkedImages c9Env = .ok "text/html; charset=utf-8" "done"
    :=
  ⟨rfl, rfl,
    (c9_png_strict_watermark c9Env c9JpegWm originBase [1]).1 (by decide)
      rfl rfl originBase rfl,
    (c9_png_strict_watermark c9Env c9JpegWm originBase [1]).2 _ _ _ _ _ _
      _ _ rfl rfl rfl rfl rfl rfl rfl rfl rfl rfl⟩

/-- C10: `encodeImageToBase64` ignores the encoders' error results — its
output is the base64 encoding of exactly the buffered bytes, its `String`
type carries no error channel, and two environments whose encoders buffer
the same bytes but report different errors produce identical output. -/
theorem c10_encoder_errors_discarded (env env' : Env) (img : GoImage)
    (imgType : String) :
    encodeImageToBase64 env img "jpeg"
      = base64Encode (env.jpegEncode img).1
    ∧ encodeImageToBase64 env img "png"
        = base64Encode (env.pngEncode img).1
    ∧ ((env.jpegEncode img).1 = (env'.jpegEncode img).1 →
        (env.pngEncode img).1 = (env'.pngEncode img).1 →
        encodeImageToBase64 env img imgType
          = encodeImageToBase64 env' img imgType) := by
  refine ⟨rfl, rfl, ?_⟩
  intro h1 h2
  unfold encodeImageToBase64 encodeBuffer
  rw [h1, h2]

/-- An environment whose encoders buffer some bytes and report success. -/
def c10EnvA : Env :=
  { dummyEnv with
    jpegEncode := fun _ => ([3, 200], false)
    pngEncode := fun _ => ([5], false) }

/-- The same buffered bytes, but both encoders report an error. -/
def c10EnvB : Env :=
  { dummyEnv with
    jpegEncode := fun _ => ([3, 200], true)
    pngEncode := fun _ => ([5], true) }

/-- C10 witness: encoders differing only in their (discarded) error result
yield the same base64 output, which is exactly the encoding of the
buffered bytes. -/
theorem c10_encoder_errors_discarded_witness :
    (c10EnvA.jpegEncode dummyImage).2 ≠ (c10EnvB.jpegEncode dummyImage).2
    ∧ encodeImageToBase64 c10EnvA dummyImage "jpeg"
        = base64Encode (c10EnvA.jpegEncode dummyImage).1
    ∧ encodeImageToBase64 c10EnvA dummyImage "png"
        = base64Encode (c10EnvA.pngEncode dummyImage).1
    ∧ encodeImageToBase64 c10EnvA dummyImage "jpeg"
        = encodeImageToBase64 c10EnvB dummyImage "jpeg" :=
  ⟨by decide,
    (c10_encoder_errors_discarded c10EnvA c10EnvB dummyImage "jpeg").1,
    (c10_encoder_errors_discarded c10EnvA c10EnvB dummyImage "png").2.1,
    (c10_encoder_errors_discarded c10EnvA c10EnvB dummyImage "jpeg").2.2
      rfl rfl⟩

/-- An environment whose rescaler is the identity and which decodes
`"wm.png"` to the 100×100 bitmap. -/
def c7EnvA : Env :=
  { dummyEnv with
    files := fun p => if p = "wm.png" then some [0] else none
    pngDecode := fun _ => some wm100 }

/-- The same environment with a completely different rescaler. -/
def c7EnvB : Env := { c7EnvA with resize := fun _ _ _ => base800 }

/-- The scenario watermark at scale 2. -/
def c7Wm2 : Watermark :=
  { Opacity := 0.6, Color := none, Font := "", Size := 0, Rotate := 0,
    Path := "wm.png", Scale := 2 }

/-- C7 witness: the three facets at concrete inputs — bounds preservation
at scale 1, independence from the rescaler at scale 1, and the concrete
resize call at scale 2. -/
theorem c7_scale_semantics_witness :
    (drawOver (newRGBA dummyImage.bounds) dummyImage.bounds dummyImage 0
        0).bounds = dummyImage.bounds
    ∧ ApplyToImage c7EnvA c6Wm base800 = ApplyToImage c7EnvB c6Wm base800
    ∧ c7Wm2.Scale ≠ 1
    ∧ scaledWatermark c7EnvA c7Wm2 wm100
        = c7EnvA.resize (goUintOfRat ((wm100.bounds.Dx : ℚ) * c7Wm2.Scale))
            (goUintOfRat ((wm100.bounds.Dy : ℚ) * c7Wm2.Scale)) wm100
    ∧ (ApplyToImage c7EnvA c7Wm2 base800).isSome = true := by
  refine ⟨(c7_scale_semantics dummyEnv dummyEnv emptyPathWm
      dummyImage).1 rfl _ rfl,
    (c7_scale_semantics c7EnvA c7EnvB c6Wm base800).2.1 rfl rfl rfl,
    by decide,
    (c7_scale_semantics c7EnvA c7EnvB c7Wm2 base800).2.2.1 wm100
      (by decide), ?_⟩
  rw [(c7_scale_semantics c7EnvA c7EnvB c7Wm2 base800).2.2.2 (by decide)
    (by decide) [0] wm100 rfl rfl]
  rfl

